import Mathlib

/-!
Verification of the LossTool utility (src/losstool.py).

The tool loads two two-column numeric files, checks that the two loaded
arrays have the same shape, and computes four regression metrics
(MSE, MAE, RMSE, R-squared) on the y-columns.

Embedding choices:
* Numeric values are embedded as rationals; float rounding is not modelled,
  except for the one place where IEEE-754 semantics is observable in the
  claims: division by zero inside `r_squared`, which is modelled by the
  four-valued type `FVal` (finite, plus-infinity, minus-infinity, NaN).
* A parsed input file is a list of rows, each row a list of numeric tokens.
  `np.genfromtxt` and the shape checks in `load_data` and
  `check_data_consistency` only depend on the shape of the parsed array,
  so arrays are modelled by their numpy shape (a list of dimensions;
  numpy squeezes a single-row or single-column file to a 1-D array and a
  single-value file to a 0-D array).
-/

/-- Elementwise difference `y_true - y_pred` of two numpy vectors
(`y_true - y_pred` in the source; numpy requires equal lengths,
which the claims hypothesise). -/
def sub_lists (a b : List ℚ) : List ℚ := List.zipWith (fun x y => x - y) a b

/-- `np.mean` of a vector: sum divided by length. -/
def npMean (l : List ℚ) : ℚ := l.sum / (l.length : ℚ)

/-- `mean_squared_error` from src/losstool.py: `np.mean((y_true - y_pred) ** 2)`. -/
def mean_squared_error (yTrue yPred : List ℚ) : ℚ :=
  npMean ((sub_lists yTrue yPred).map (fun d => d ^ 2))

/-- `mean_absolute_error` from src/losstool.py: `np.mean(np.abs(y_true - y_pred))`. -/
def mean_absolute_error (yTrue yPred : List ℚ) : ℚ :=
  npMean ((sub_lists yTrue yPred).map (fun d => |d|))

/-- `root_mean_squared_error` from src/losstool.py:
`np.sqrt(mean_squared_error(y_true, y_pred))`. -/
noncomputable def root_mean_squared_error (yTrue yPred : List ℚ) : ℝ :=
  Real.sqrt ((mean_squared_error yTrue yPred : ℚ) : ℝ)

/-- `ss_res` inside `r_squared`: `np.sum((y_true - y_pred) ** 2)`. -/
def ss_res (yTrue yPred : List ℚ) : ℚ :=
  ((sub_lists yTrue yPred).map (fun d => d ^ 2)).sum

/-- `ss_tot` inside `r_squared`: `np.sum((y_true - np.mean(y_true)) ** 2)`. -/
def ss_tot (yTrue : List ℚ) : ℚ :=
  (yTrue.map (fun t => (t - npMean yTrue) ^ 2)).sum

/-- A float64 value as observable through the metrics: an exactly
represented finite value, a signed infinity, or NaN.
Rounding of finite values is not modelled. -/
inductive FVal where
  | fin (q : ℚ)
  | pinf
  | ninf
  | nan
deriving DecidableEq, Repr

/-- IEEE-754 division of two (exactly represented) finite float64 values,
as numpy performs it: `x / 0` is a signed infinity for `x` nonzero,
`0 / 0` is NaN, and otherwise the quotient is exact rational division. -/
def fdiv (a b : ℚ) : FVal :=
  if b = 0 then
    (if a = 0 then FVal.nan else if 0 < a then FVal.pinf else FVal.ninf)
  else FVal.fin (a / b)

/-- IEEE-754 subtraction `1 - v` of a float64 value from the constant 1. -/
def fsub1 : FVal → FVal
  | FVal.fin q => FVal.fin (1 - q)
  | FVal.pinf => FVal.ninf
  | FVal.ninf => FVal.pinf
  | FVal.nan => FVal.nan

/-- `r_squared` from src/losstool.py: `1 - (ss_res / ss_tot)` computed in
float64 arithmetic, so that a zero `ss_tot` produces NaN or a signed
infinity instead of an error. -/
def r_squared (yTrue yPred : List ℚ) : FVal :=
  fsub1 (fdiv (ss_res yTrue yPred) (ss_tot yTrue))

/-- Whether a float64 value is finite (neither an infinity nor NaN). -/
def FVal.isFinite : FVal → Bool
  | FVal.fin _ => true
  | _ => false

/-- Outcome of `load_data` in src/losstool.py.  The source catches
`IOError` and `ValueError` inside `load_data` itself, prints a message and
calls `sys.exit(1)` there; any other exception propagates out uncaught. -/
inductive LoadResult where
  | ok (shape : List ℕ)
  | exitsProcess (code : ℕ)
  | raisesUncaught
deriving DecidableEq, Repr

/-- Shape of the array produced by `np.genfromtxt` on a whitespace-separated
numeric file, given as its list of token rows.  Ragged rows make
`genfromtxt` raise `ValueError` (`none` here).  numpy returns a 0-D array
for a single value, a 1-D array for a single row or a single column, and a
2-D array of shape (rows, columns) otherwise. -/
def genfromtxt_shape (rows : List (List ℚ)) : Option (List ℕ) :=
  match rows with
  | [] => some [0]
  | r :: rs =>
    if rs.all (fun row => row.length = r.length) then
      some
        (if rows.length = 1 then
          (if r.length = 1 then [] else [r.length])
        else if r.length = 1 then [rows.length]
        else [rows.length, r.length])
    else none

/-- `load_data` from src/losstool.py, modelled at the level of array
shapes (every branch of the source depends only on the shape):
`data = np.genfromtxt(filename).T`; numpy transposition reverses the
shape tuple; then `data.shape[0]` is compared with 2.  A ragged file makes
`genfromtxt` raise `ValueError`, and a wrong `shape[0]` raises
`ValueError` explicitly; both are caught inside `load_data`, which prints
and calls `sys.exit(1)`.  On a 0-D array `data.shape[0]` raises
`IndexError`, which no handler catches. -/
def load_data (rows : List (List ℚ)) : LoadResult :=
  match genfromtxt_shape rows with
  | none => LoadResult.exitsProcess 1
  | some sh =>
    match sh.reverse with
    | [] => LoadResult.raisesUncaught
    | d0 :: rest =>
      if d0 = 2 then LoadResult.ok (d0 :: rest) else LoadResult.exitsProcess 1

/-- `check_data_consistency` from src/losstool.py: raises `ValueError`
(the shape-mismatch error) unless the two arrays have equal shapes. -/
def check_data_consistency (refShape obtainedShape : List ℕ) : Except String Unit :=
  if refShape = obtainedShape then Except.ok ()
  else Except.error "Reference and obtained data must have the same shape."

/-! Helper lemmas. -/

lemma sum_map_eq_sum_range (f : ℚ → ℚ) (l : List ℚ) :
    (l.map f).sum = ∑ i ∈ Finset.range l.length, f (l.getD i 0) := by
  induction l with
  | nil => simp
  | cons a t ih =>
    rw [List.map_cons, List.sum_cons, List.length_cons, Finset.sum_range_succ']
    simp only [List.getD_cons_succ, List.getD_cons_zero]
    rw [ih, add_comm]

lemma sum_map_sub_eq_sum_range (f : ℚ → ℚ) :
    ∀ a b : List ℚ, a.length = b.length →
      ((sub_lists a b).map f).sum =
        ∑ i ∈ Finset.range a.length, f (a.getD i 0 - b.getD i 0) := by
  intro a
  induction a with
  | nil => intro b h; simp [sub_lists]
  | cons x t ih =>
    intro b h
    cases b with
    | nil => simp at h
    | cons y u =>
      have h' : t.length = u.length := by
        simpa using h
      have hz : sub_lists (x :: t) (y :: u) = (x - y) :: sub_lists t u := rfl
      rw [hz, List.map_cons, List.sum_cons, List.length_cons, Finset.sum_range_succ']
      simp only [List.getD_cons_succ, List.getD_cons_zero]
      rw [ih u h', add_comm]

lemma sub_lists_length (a b : List ℚ) : (sub_lists a b).length = min a.length b.length :=
  List.length_zipWith _ _ _

lemma sub_lists_self (l : List ℚ) : sub_lists l l = List.replicate l.length 0 := by
  induction l with
  | nil => rfl
  | cons a t ih =>
    show (a - a) :: sub_lists t t = 0 :: List.replicate t.length 0
    rw [sub_self, ih]

lemma sum_map_sq_nonneg (l : List ℚ) : 0 ≤ (l.map (fun d => d ^ 2)).sum := by
  apply List.sum_nonneg
  intro x hx
  obtain ⟨d, -, rfl⟩ := List.mem_map.mp hx
  positivity

lemma sum_map_abs_nonneg (l : List ℚ) : 0 ≤ (l.map (fun d => |d|)).sum := by
  apply List.sum_nonneg
  intro x hx
  obtain ⟨d, -, rfl⟩ := List.mem_map.mp hx
  positivity

lemma mean_squared_error_nonneg (yT yP : List ℚ) : 0 ≤ mean_squared_error yT yP :=
  div_nonneg (sum_map_sq_nonneg _) (by positivity)

lemma mean_absolute_error_nonneg (yT yP : List ℚ) : 0 ≤ mean_absolute_error yT yP :=
  div_nonneg (sum_map_abs_nonneg _) (by positivity)

lemma npMean_const (l : List ℚ) (c : ℚ) (h : ∀ x ∈ l, x = c) (hl : l ≠ []) :
    npMean l = c := by
  have hs : l.sum = l.length • c := List.sum_eq_card_nsmul l c h
  have hn : (l.length : ℚ) ≠ 0 := by
    simpa using (List.length_pos.mpr hl).ne.symm
  rw [npMean, hs, nsmul_eq_mul, mul_comm, mul_div_assoc, div_self hn, mul_one]

lemma ss_tot_const_zero (l : List ℚ) (c : ℚ) (h : ∀ x ∈ l, x = c) (hl : l ≠ []) :
    ss_tot l = 0 := by
  apply List.sum_eq_zero
  intro x hx
  obtain ⟨t, ht, rfl⟩ := List.mem_map.mp hx
  rw [h t ht, npMean_const l c h hl, sub_self]
  ring

lemma ss_res_self (l : List ℚ) : ss_res l l = 0 := by
  rw [ss_res, sub_lists_self]
  simp

lemma mean_squared_error_self (l : List ℚ) : mean_squared_error l l = 0 := by
  rw [mean_squared_error, sub_lists_self]
  simp [npMean]

lemma mean_absolute_error_self (l : List ℚ) : mean_absolute_error l l = 0 := by
  rw [mean_absolute_error, sub_lists_self]
  simp [npMean]

lemma abs_mean_sq_le_sq_mean (l : List ℚ) (hk : 0 < l.length) :
    ((l.map (fun d => |d|)).sum / (((l.map (fun d => |d|)).length : ℕ) : ℚ)) ^ 2 ≤
      (l.map (fun d => d ^ 2)).sum / (((l.map (fun d => d ^ 2)).length : ℕ) : ℚ) := by
  have hkQ : (0 : ℚ) < (l.length : ℚ) := by exact_mod_cast hk
  simp only [List.length_map]
  have hcs : ((l.map (fun d => |d|)).sum) ^ 2 ≤
      (l.length : ℚ) * (l.map (fun d => d ^ 2)).sum := by
    rw [sum_map_eq_sum_range, sum_map_eq_sum_range]
    have h := Finset.sum_mul_sq_le_sq_mul_sq (Finset.range l.length)
      (fun _ => (1 : ℚ)) (fun i => |l.getD i 0|)
    simpa [sq_abs] using h
  rw [div_pow, div_le_div_iff₀ (by positivity) hkQ]
  calc ((l.map (fun d => |d|)).sum) ^ 2 * (l.length : ℚ)
      ≤ ((l.length : ℚ) * (l.map (fun d => d ^ 2)).sum) * (l.length : ℚ) :=
        mul_le_mul_of_nonneg_right hcs hkQ.le
    _ = (l.map (fun d => d ^ 2)).sum * (l.length : ℚ) ^ 2 := by ring

/-! Claim theorems. -/

/-- C1: `r_squared` computes `1 - SS_res / SS_tot` where `SS_res` is the sum
over `i` of `(yTrue[i] - yPred[i])^2` and `SS_tot` is the sum over `i` of
`(yTrue[i] - mean(yTrue))^2`; the subtraction and division are the float64
operations of the source, and whenever `SS_tot` is nonzero the result is the
finite value `1 - SS_res / SS_tot`. -/
theorem r_squared_eq_formula (yT yP : List ℚ)
    (hlen : yT.length = yP.length) (hn : 1 ≤ yT.length) :
    r_squared yT yP =
      fsub1 (fdiv (∑ i ∈ Finset.range yT.length, (yT.getD i 0 - yP.getD i 0) ^ 2)
        (∑ i ∈ Finset.range yT.length, (yT.getD i 0 - npMean yT) ^ 2)) ∧
    ((∑ i ∈ Finset.range yT.length, (yT.getD i 0 - npMean yT) ^ 2) ≠ 0 →
      r_squared yT yP =
        FVal.fin (1 -
          (∑ i ∈ Finset.range yT.length, (yT.getD i 0 - yP.getD i 0) ^ 2) /
            ∑ i ∈ Finset.range yT.length, (yT.getD i 0 - npMean yT) ^ 2)) := by
  have hres : ss_res yT yP =
      ∑ i ∈ Finset.range yT.length, (yT.getD i 0 - yP.getD i 0) ^ 2 :=
    sum_map_sub_eq_sum_range (fun d => d ^ 2) yT yP hlen
  have htot : ss_tot yT =
      ∑ i ∈ Finset.range yT.length, (yT.getD i 0 - npMean yT) ^ 2 :=
    sum_map_eq_sum_range _ yT
  constructor
  · rw [r_squared, hres, htot]
  · intro hne
    rw [r_squared, hres, htot]
    unfold fdiv
    rw [if_neg hne]
    rfl

/-- Witness for C1 at yTrue = [1,2,3], yPred = [2,2,2]. -/
theorem r_squared_eq_formula_witness :
    (([1, 2, 3] : List ℚ).length = ([2, 2, 2] : List ℚ).length ∧
      1 ≤ ([1, 2, 3] : List ℚ).length) ∧
    (r_squared [1, 2, 3] [2, 2, 2] =
      fsub1 (fdiv
        (∑ i ∈ Finset.range ([1, 2, 3] : List ℚ).length,
          (([1, 2, 3] : List ℚ).getD i 0 - ([2, 2, 2] : List ℚ).getD i 0) ^ 2)
        (∑ i ∈ Finset.range ([1, 2, 3] : List ℚ).length,
          (([1, 2, 3] : List ℚ).getD i 0 - npMean [1, 2, 3]) ^ 2)) ∧
    ((∑ i ∈ Finset.range ([1, 2, 3] : List ℚ).length,
        (([1, 2, 3] : List ℚ).getD i 0 - npMean [1, 2, 3]) ^ 2) ≠ 0 →
      r_squared [1, 2, 3] [2, 2, 2] =
        FVal.fin (1 -
          (∑ i ∈ Finset.range ([1, 2, 3] : List ℚ).length,
            (([1, 2, 3] : List ℚ).getD i 0 - ([2, 2, 2] : List ℚ).getD i 0) ^ 2) /
            ∑ i ∈ Finset.range ([1, 2, 3] : List ℚ).length,
              (([1, 2, 3] : List ℚ).getD i 0 - npMean [1, 2, 3]) ^ 2))) :=
  ⟨⟨rfl, by norm_num⟩, r_squared_eq_formula [1, 2, 3] [2, 2, 2] rfl (by norm_num)⟩

/-- C2 counterexample: on the constant equal inputs yTrue = yPred = [5,5] the
code computes `ss_res = 0` and `ss_tot = 0`, the float64 division `0.0/0.0`
yields NaN, and `r_squared` returns NaN, not 1. -/
theorem r_squared_nan_on_constant_equal_inputs :
    r_squared [5, 5] [5, 5] = FVal.nan ∧ FVal.nan ≠ FVal.fin 1 := by
  constructor
  · norm_num [r_squared, ss_res, ss_tot, npMean, sub_lists, fdiv, fsub1]
  · decide

/-- C2 (amended): for equal inputs, MSE, MAE and RMSE are 0; `r_squared`
returns 1 whenever `ss_tot` is nonzero (the yTrue values are not all
identical), and NaN when `ss_tot` is zero. -/
theorem metrics_vanish_on_equal_inputs (yT : List ℚ) (hn : 1 ≤ yT.length) :
    mean_squared_error yT yT = 0 ∧ mean_absolute_error yT yT = 0 ∧
    root_mean_squared_error yT yT = 0 ∧
    (ss_tot yT ≠ 0 → r_squared yT yT = FVal.fin 1) ∧
    (ss_tot yT = 0 → r_squared yT yT = FVal.nan) := by
  refine ⟨mean_squared_error_self yT, mean_absolute_error_self yT, ?_, ?_, ?_⟩
  · rw [root_mean_squared_error, mean_squared_error_self]
    simp
  · intro hne
    rw [r_squared, ss_res_self]
    simp [fdiv, fsub1, hne]
  · intro h0
    rw [r_squared, ss_res_self, h0]
    simp [fdiv, fsub1]

/-- Witness for C2 (amended) at yTrue = yPred = [1,2]. -/
theorem metrics_vanish_on_equal_inputs_witness :
    (1 ≤ ([1, 2] : List ℚ).length) ∧
    (mean_squared_error [1, 2] [1, 2] = 0 ∧ mean_absolute_error [1, 2] [1, 2] = 0 ∧
      root_mean_squared_error [1, 2] [1, 2] = 0 ∧
      (ss_tot [1, 2] ≠ 0 → r_squared [1, 2] [1, 2] = FVal.fin 1) ∧
      (ss_tot [1, 2] = 0 → r_squared [1, 2] [1, 2] = FVal.nan)) :=
  ⟨by norm_num, metrics_vanish_on_equal_inputs [1, 2] (by norm_num)⟩

/-- C3: `root_mean_squared_error` is the square root of
`mean_squared_error`. -/
theorem rmse_eq_sqrt_mse (yT yP : List ℚ)
    (hlen : yT.length = yP.length) (hn : 1 ≤ yT.length) :
    root_mean_squared_error yT yP = Real.sqrt ((mean_squared_error yT yP : ℚ) : ℝ) := rfl

/-- Witness for C3 at yTrue = [1,2], yPred = [2,2]. -/
theorem rmse_eq_sqrt_mse_witness :
    (([1, 2] : List ℚ).length = ([2, 2] : List ℚ).length ∧
      1 ≤ ([1, 2] : List ℚ).length) ∧
    root_mean_squared_error [1, 2] [2, 2] =
      Real.sqrt ((mean_squared_error [1, 2] [2, 2] : ℚ) : ℝ) :=
  ⟨⟨rfl, by norm_num⟩, rmse_eq_sqrt_mse [1, 2] [2, 2] rfl (by norm_num)⟩

/-- C4: on yTrue = [1,2,3], yPred = [2,2,2] the code returns MSE = 2/3,
MAE = 2/3, SS_res = 2, SS_tot = 2 and R-squared = 0. -/
theorem losses_on_shifted_example :
    mean_squared_error [1, 2, 3] [2, 2, 2] = 2 / 3 ∧
    mean_absolute_error [1, 2, 3] [2, 2, 2] = 2 / 3 ∧
    ss_res [1, 2, 3] [2, 2, 2] = 2 ∧ ss_tot [1, 2, 3] = 2 ∧
    r_squared [1, 2, 3] [2, 2, 2] = FVal.fin 0 := by
  refine ⟨?_, ?_, ?_, ?_, ?_⟩ <;>
    norm_num [mean_squared_error, mean_absolute_error, ss_res, ss_tot,
      r_squared, npMean, sub_lists, fdiv, fsub1]

/-- C5: MAE and MSE are nonnegative. -/
theorem mae_mse_nonneg (yT yP : List ℚ)
    (hlen : yT.length = yP.length) (hn : 1 ≤ yT.length) :
    0 ≤ mean_absolute_error yT yP ∧ 0 ≤ mean_squared_error yT yP :=
  ⟨mean_absolute_error_nonneg yT yP, mean_squared_error_nonneg yT yP⟩

/-- Witness for C5 at yTrue = [1], yPred = [2]. -/
theorem mae_mse_nonneg_witness :
    (([1] : List ℚ).length = ([2] : List ℚ).length ∧ 1 ≤ ([1] : List ℚ).length) ∧
    (0 ≤ mean_absolute_error [1] [2] ∧ 0 ≤ mean_squared_error [1] [2]) :=
  ⟨⟨rfl, by norm_num⟩, mae_mse_nonneg [1] [2] rfl (by norm_num)⟩

/-- C6 (failing input for the claim): a single-column file with exactly two
rows parses to a 1-D numpy array of shape (2,), so after transposition
`data.shape[0]` equals 2, the `ValueError` is never raised, and `load_data`
returns the array instead of rejecting the file. -/
theorem load_data_accepts_one_column_two_rows :
    load_data [[1], [2]] = LoadResult.ok [2] := by decide

/-- C7: `check_data_consistency` fails with the shape-mismatch `ValueError`
exactly when the point counts of two two-column datasets differ, and
succeeds on any two datasets of equal shape. -/
theorem check_data_consistency_spec (n m : ℕ) :
    (n ≠ m →
      check_data_consistency [2, n] [2, m] =
        Except.error "Reference and obtained data must have the same shape.") ∧
    (n = m → check_data_consistency [2, n] [2, m] = Except.ok ()) ∧
    (∀ s : List ℕ, check_data_consistency s s = Except.ok ()) := by
  refine ⟨?_, ?_, ?_⟩
  · intro h
    have hne : ([2, n] : List ℕ) ≠ [2, m] := by simp [h]
    rw [check_data_consistency, if_neg hne]
  · intro h
    rw [h, check_data_consistency, if_pos rfl]
  · intro s
    rw [check_data_consistency, if_pos rfl]

/-- Witness for C7 at point counts 3 and 4 (mismatch) and 5 and 5 (match). -/
theorem check_data_consistency_spec_witness :
    check_data_consistency [2, 3] [2, 4] =
      Except.error "Reference and obtained data must have the same shape." ∧
    check_data_consistency [2, 5] [2, 5] = Except.ok () :=
  ⟨(check_data_consistency_spec 3 4).1 (by decide),
    (check_data_consistency_spec 5 5).2.1 rfl⟩

/-- C8 (failing input for the claim): on a three-column file the `ValueError`
raised for a wrong column count is caught inside `load_data` itself, which
prints the message and calls `sys.exit(1)` there; the error never reaches the
caller. -/
theorem load_data_exits_process_itself :
    load_data [[1, 2, 3], [4, 5, 6]] = LoadResult.exitsProcess 1 := by decide

/-- C9: when all yTrue values are identical, `ss_tot` is 0 and the float64
division makes `r_squared` return a non-finite value (NaN when `ss_res` is 0,
an infinity otherwise) instead of raising an error. -/
theorem r_squared_nonfinite_on_constant_yTrue (yT yP : List ℚ) (c : ℚ)
    (hc : ∀ x ∈ yT, x = c)
    (hlen : yT.length = yP.length) (hn : 1 ≤ yT.length) :
    (r_squared yT yP).isFinite = false := by
  have hne : yT ≠ [] := by
    intro h
    rw [h] at hn
    simp at hn
  have htot : ss_tot yT = 0 := ss_tot_const_zero yT c hc hne
  rw [r_squared, htot]
  simp only [fdiv]
  split_ifs <;> simp_all [fsub1, FVal.isFinite]

/-- Witness for C9 at yTrue = [5,5], yPred = [1,2]. -/
theorem r_squared_nonfinite_on_constant_yTrue_witness :
    ((∀ x ∈ ([5, 5] : List ℚ), x = 5) ∧
      ([5, 5] : List ℚ).length = ([1, 2] : List ℚ).length ∧
      1 ≤ ([5, 5] : List ℚ).length) ∧
    (r_squared [5, 5] [1, 2]).isFinite = false :=
  ⟨⟨by norm_num, rfl, by norm_num⟩,
    r_squared_nonfinite_on_constant_yTrue [5, 5] [1, 2] 5 (by norm_num) rfl (by norm_num)⟩

/-- C10: the mean absolute error never exceeds the root mean squared error. -/
theorem mae_le_rmse (yT yP : List ℚ)
    (hlen : yT.length = yP.length) (hn : 1 ≤ yT.length) :
    ((mean_absolute_error yT yP : ℚ) : ℝ) ≤ root_mean_squared_error yT yP := by
  have hk : 0 < (sub_lists yT yP).length := by
    rw [sub_lists_length, hlen, min_self]
    omega
  have hq : (mean_absolute_error yT yP) ^ 2 ≤ mean_squared_error yT yP :=
    abs_mean_sq_le_sq_mean (sub_lists yT yP) hk
  have hmaeR : ((mean_absolute_error yT yP : ℚ) : ℝ) ^ 2 ≤
      ((mean_squared_error yT yP : ℚ) : ℝ) := by
    exact_mod_cast hq
  have hmae0 : (0 : ℝ) ≤ ((mean_absolute_error yT yP : ℚ) : ℝ) := by
    exact_mod_cast mean_absolute_error_nonneg yT yP
  calc ((mean_absolute_error yT yP : ℚ) : ℝ)
      = Real.sqrt (((mean_absolute_error yT yP : ℚ) : ℝ) ^ 2) :=
        (Real.sqrt_sq hmae0).symm
    _ ≤ Real.sqrt ((mean_squared_error yT yP : ℚ) : ℝ) := Real.sqrt_le_sqrt hmaeR
    _ = root_mean_squared_error yT yP := rfl

/-- Witness for C10 at yTrue = [1,2], yPred = [2,2]. -/
theorem mae_le_rmse_witness :
    (([1, 2] : List ℚ).length = ([2, 2] : List ℚ).length ∧
      1 ≤ ([1, 2] : List ℚ).length) ∧
    ((mean_absolute_error [1, 2] [2, 2] : ℚ) : ℝ) ≤ root_mean_squared_error [1, 2] [2, 2] :=
  ⟨⟨rfl, by norm_num⟩, mae_le_rmse [1, 2] [2, 2] rfl (by norm_num)⟩
